import Mathlib

/-!
Shallow embedding of the `trusted_oracle` ink! contract
(src/trusted_oracle/lib.rs) and proofs about its request ledger,
escrow/refund logic, expiry handling and admin surface.

Conventions of the embedding:
* `AccountId` is a `Nat`, `Balance` is a `Nat`, `Hash` is a `Nat`.
* u64 quantities wrap modulo `U64MOD = 2^64` exactly where the source
  wraps (`wrapping_add`) or performs unchecked u64 arithmetic
  (`block_number() + valid_period as u64`).
* The host environment of a call (caller, transferred value, block number,
  contract balance) is passed explicitly to each operation.
* Host balance transfers are the only externally-failing primitive; their
  outcome is an explicit `TransferResult` parameter, and the transfers an
  operation actually performs are returned as a list of
  `(recipient, amount)` pairs.
* The cross-contract callback delivery in `callback` is abstracted by a
  boolean outcome `cb` (`true` = the `fire()` call succeeded).
* The `requests` storage `HashMap<u64,(AccountId,u64,Balance)>` is an
  association list keyed by request id; insertion replaces any entry with
  the same key, `take` removes it.
* Events are not modelled; no claim is about events.
-/

namespace TOracle

/-- The modulus of u64 arithmetic, 2^64. -/
def U64MOD : Nat := 18446744073709551616

/-- Error enum of the contract (src/trusted_oracle/lib.rs lines 11-22). -/
inductive Error where
  | Unauthorized
  | RequestExpired
  | RequestNotExpired
  | RequestNotFound
  | TransferFailed
  | InsufficientFunds
  | BelowSubsistenceThreshold
  | PaymentRequired
  | CallbackExecutionFailed
  | ValueError
deriving DecidableEq, Repr

instance {ε α : Type} [DecidableEq ε] [DecidableEq α] :
    DecidableEq (Except ε α) := fun x y =>
  match x, y with
  | .ok a, .ok b =>
    if h : a = b then isTrue (by rw [h]) else isFalse (by simp [h])
  | .error a, .error b =>
    if h : a = b then isTrue (by rw [h]) else isFalse (by simp [h])
  | .ok _, .error _ => isFalse (by simp)
  | .error _, .ok _ => isFalse (by simp)

/-- Outcome of a host-level balance transfer (`self.env().transfer`):
success, failure with `ink_env::Error::BelowSubsistenceThreshold`, or any
other failure. -/
inductive TransferResult where
  | ok
  | belowSubsistence
  | otherErr
deriving DecidableEq, Repr

/-- A request-ledger entry: `(requester, valid_till, escrowed_fee)`. -/
abbrev Entry := Nat × Nat × Nat

/-- The request storage: association list from request id to entry. -/
abbrev ReqMap := List (Nat × Entry)

/-- `requests.get(&id)` on the storage map. -/
def lookupReq : ReqMap → Nat → Option Entry
  | [], _ => none
  | (k, e) :: rest, id => if k = id then some e else lookupReq rest id

/-- `requests.take(&id)`: remove the entry keyed `id`. -/
def removeReq (m : ReqMap) (id : Nat) : ReqMap :=
  m.filter (fun p => p.1 ≠ id)

/-- `requests.insert(id, e)`: HashMap insert, replacing any previous
entry with the same key. -/
def insertReq (m : ReqMap) (id : Nat) (e : Entry) : ReqMap :=
  (id, e) :: removeReq m id

/-- Contract storage (src/trusted_oracle/lib.rs lines 89-107). -/
structure OracleState where
  admin : Nat
  authorized_users : List Nat
  authorized_oracle : Nat
  requests : ReqMap
  request_idx : Nat
  fee : Nat
  min_valid_period : Nat
  max_valid_period : Nat
deriving DecidableEq, Repr

/-- A performed balance transfer `(recipient, amount)`. -/
abbrev Transfer := Nat × Nat

/-- `refund_` (lines 406-425): if `fee > 0`, require the contract balance
to cover it and attempt the host transfer to `user_id`, mapping a
`BelowSubsistenceThreshold` host error and any other host error to the
contract's error kinds; when `fee = 0` no transfer happens. On success
returns the transfers performed. -/
def refund_ (balance : Nat) (tr : TransferResult) (user_id fee : Nat) :
    Except Error (List Transfer) :=
  if fee > 0 then
    if balance < fee then
      .error .InsufficientFunds
    else
      match tr with
      | .ok => .ok [(user_id, fee)]
      | .belowSubsistence => .error .BelowSubsistenceThreshold
      | .otherErr => .error .TransferFailed
  else
    .ok []

/-- `claim_` (lines 380-403): if the contract balance is positive,
transfer the entire balance to the current `authorized_oracle`, with the
same host-error mapping as `refund_`; a zero balance is a no-op success. -/
def claim_ (s : OracleState) (balance : Nat) (tr : TransferResult) :
    Except Error (List Transfer) :=
  if balance > 0 then
    match tr with
    | .ok => .ok [(s.authorized_oracle, balance)]
    | .belowSubsistence => .error .BelowSubsistenceThreshold
    | .otherErr => .error .TransferFailed
  else
    .ok []

/-- `request` (lines 154-183). Environment: `caller`, `transferred`
(the payment sent with the call), `block_number`. `pql_hash` only feeds
the emitted event. Note the source increments `request_idx` (wrapping)
before validating `valid_period`. -/
def request (s : OracleState) (caller transferred block_number : Nat)
    (pql_hash : Nat) (valid_period : Nat) :
    OracleState × Except Error Nat :=
  let _ := pql_hash
  if caller ∉ s.authorized_users then
    (s, .error .Unauthorized)
  else if s.fee > 0 ∧ transferred ≠ s.fee then
    (s, .error .PaymentRequired)
  else
    let s1 := { s with request_idx := (s.request_idx + 1) % U64MOD }
    if valid_period < s.min_valid_period ∨ valid_period > s.max_valid_period then
      (s1, .error .ValueError)
    else
      let valid_till := (block_number + valid_period) % U64MOD
      let s2 := { s1 with
        requests := insertReq s1.requests s1.request_idx (caller, valid_till, s.fee) }
      (s2, .ok s1.request_idx)

/-- `callback` (lines 191-273). `cb` is the outcome of the cross-contract
delivery call (`fire()` on the build_call): `true` means it succeeded.
The expired branch refunds via `refund_` with the `?` operator, so a
refund error propagates before the entry is removed. -/
def callback (s : OracleState) (caller block_number balance : Nat)
    (tr : TransferResult) (cb : Bool) (request_id : Nat) :
    OracleState × Except Error Unit × List Transfer :=
  if caller ≠ s.authorized_oracle then
    (s, .error .Unauthorized, [])
  else
    match lookupReq s.requests request_id with
    | none => (s, .error .RequestNotFound, [])
    | some (user_id, valid_till, fee) =>
      if valid_till < block_number then
        match refund_ balance tr user_id fee with
        | .error e => (s, .error e, [])
        | .ok ts =>
          ({ s with requests := removeReq s.requests request_id },
           .error .RequestExpired, ts)
      else
        if cb then
          ({ s with requests := removeReq s.requests request_id }, .ok (), [])
        else
          (s, .error .CallbackExecutionFailed, [])

/-- `claim_rewards` (lines 278-287): oracle-only sweep of the balance. -/
def claim_rewards (s : OracleState) (caller balance : Nat)
    (tr : TransferResult) :
    OracleState × Except Error Unit × List Transfer :=
  if caller ≠ s.authorized_oracle then
    (s, .error .Unauthorized, [])
  else
    match claim_ s balance tr with
    | .error e => (s, .error e, [])
    | .ok ts => (s, .ok (), ts)

/-- `set_oracle` (lines 295-309): admin-only; sweeps the balance to the
current oracle via `claim_` (propagating its error with `?`) and only
then installs the new oracle identity. -/
def set_oracle (s : OracleState) (caller balance : Nat)
    (tr : TransferResult) (new_oracle : Nat) :
    OracleState × Except Error Unit × List Transfer :=
  if caller ≠ s.admin then
    (s, .error .Unauthorized, [])
  else
    match claim_ s balance tr with
    | .error e => (s, .error e, [])
    | .ok ts => ({ s with authorized_oracle := new_oracle }, .ok (), ts)

/-- `set_fee` (lines 313-324): admin-only update of the `fee` field. -/
def set_fee (s : OracleState) (caller new_fee : Nat) :
    OracleState × Except Error Unit :=
  if caller ≠ s.admin then
    (s, .error .Unauthorized)
  else
    ({ s with fee := new_fee }, .ok ())

/-- `clear_expired` (lines 360-373). There is no caller check in the
source; the caller is still part of the call environment and is passed
here (unused, exactly as the source never reads it). Expired entries are
refunded (error propagated by `?`) and removed; unexpired ones give
`RequestNotExpired`; absent ids give `RequestNotFound`. -/
def clear_expired (s : OracleState) (caller block_number balance : Nat)
    (tr : TransferResult) (request_id : Nat) :
    OracleState × Except Error Unit × List Transfer :=
  let _ := caller
  match lookupReq s.requests request_id with
  | none => (s, .error .RequestNotFound, [])
  | some (user_id, valid_till, fee) =>
    if valid_till < block_number then
      match refund_ balance tr user_id fee with
      | .error e => (s, .error e, [])
      | .ok ts =>
        ({ s with requests := removeReq s.requests request_id }, .ok (), ts)
    else
      (s, .error .RequestNotExpired, [])

/-! ## Helper lemmas on the request map -/

/-- Removing an id makes it unfindable. -/
theorem lookup_removeReq_self (m : ReqMap) (id : Nat) :
    lookupReq (removeReq m id) id = none := by
  induction m with
  | nil => rfl
  | cons p rest ih =>
    obtain ⟨k, e⟩ := p
    by_cases h : k = id
    · simpa [removeReq, List.filter_cons, h] using ih
    · simp only [removeReq, List.filter_cons, ne_eq, decide_not] at ih ⊢
      simp [h, lookupReq, ih]

/-- Freshly inserted entries are found. -/
theorem lookup_insertReq_self (m : ReqMap) (id : Nat) (e : Entry) :
    lookupReq (insertReq m id e) id = some e := by
  simp [insertReq, lookupReq]

/-- `set_fee` never touches the `requests` field. -/
theorem set_fee_requests_frame (s : OracleState) (caller new_fee : Nat) :
    ((set_fee s caller new_fee).1).requests = s.requests := by
  unfold set_fee
  by_cases h : caller = s.admin <;> simp [h]

/-- Shape of a successful `refund_`: the whole escrowed fee goes to the
requester by a single transfer, or no transfer at all when the fee is 0. -/
theorem refund_ok_shape (bal : Nat) (tr : TransferResult) (user fee : Nat)
    (ts : List Transfer) (h : refund_ bal tr user fee = .ok ts) :
    ts = if 0 < fee then [(user, fee)] else [] := by
  unfold refund_ at h
  by_cases hf : fee > 0
  · simp only [hf, if_pos] at h
    by_cases hb : bal < fee
    · simp [hb] at h
    · simp only [hb, if_neg, if_false] at h
      cases tr <;> simp_all
  · simp only [hf] at h
    simp_all

/-- Shape of a successful `claim_`: the whole balance goes to the current
oracle, or no transfer at all when the balance is 0. -/
theorem claim_ok_shape (s : OracleState) (bal : Nat) (tr : TransferResult)
    (ts : List Transfer) (h : claim_ s bal tr = .ok ts) :
    ts = if 0 < bal then [(s.authorized_oracle, bal)] else [] := by
  unfold claim_ at h
  by_cases hb : bal > 0
  · simp only [hb, if_pos] at h
    cases tr <;> simp_all
  · simp only [hb] at h
    simp_all

/-! ## Concrete sample state used by witnesses and counterexamples

`stateA`: admin is account 0, oracle is account 1, account 2 is the only
authorized user; one pending request with id 5 by requester 7, expiring at
block 50 with an escrowed fee of 100; current fee 0; validity bounds
[10, 100]. -/

def stateA : OracleState :=
  { admin := 0
    authorized_users := [2]
    authorized_oracle := 1
    requests := [(5, (7, 50, 100))]
    request_idx := 5
    fee := 0
    min_valid_period := 10
    max_valid_period := 100 }

/-- `refund_` can fail, but never with `Unauthorized`. -/
theorem refund_ne_unauthorized (bal : Nat) (tr : TransferResult) (u f : Nat) :
    refund_ bal tr u f ≠ .error .Unauthorized := by
  unfold refund_
  by_cases hf : f > 0 <;> by_cases hb : bal < f <;> cases tr <;> simp [hf, hb]

/-! ## C1 -/

/-- C1 (counterexample): in `stateA`, account 3 is neither the
authorized_oracle (1) nor the admin (0), yet `clear_expired` called by 3
on the expired request 5 at block 60 does not fail with `Unauthorized` —
it succeeds and removes the entry, changing the state. -/
theorem clear_expired_by_stranger_succeeds :
    ((3 : Nat) ≠ stateA.authorized_oracle ∧ (3 : Nat) ≠ stateA.admin) ∧
    (clear_expired stateA 3 60 100 .ok 5).2.1 = .ok () ∧
    (clear_expired stateA 3 60 100 .ok 5).1 ≠ stateA := by decide

/-- C1 (amended): `clear_expired` performs no caller authorization at
all: a caller that is neither the `authorized_oracle` nor the `admin`
gets exactly the behaviour an admin caller would get, and the call never
fails with `Unauthorized`. -/
theorem clear_expired_ignores_caller :
    ∀ (s : OracleState) (caller bn bal : Nat) (tr : TransferResult) (id : Nat),
    caller ≠ s.authorized_oracle → caller ≠ s.admin →
    clear_expired s caller bn bal tr id = clear_expired s s.admin bn bal tr id ∧
    (clear_expired s caller bn bal tr id).2.1 ≠ .error .Unauthorized := by
  intro s caller bn bal tr id h1 h2
  refine ⟨rfl, ?_⟩
  unfold clear_expired
  rcases hl : lookupReq s.requests id with _ | ⟨u, vt, f⟩
  · simp
  · by_cases hv : vt < bn
    · rcases hr : refund_ bal tr u f with e | ts
      · have := refund_ne_unauthorized bal tr u f
        rw [hr] at this
        simp [hv, hr]
        intro he
        exact this (by rw [he])
      · simp [hv, hr]
    · simp [hv]

/-- C1 (witness): instantiating the amended theorem at `stateA` with the
stranger caller 3. -/
theorem clear_expired_ignores_caller_witness :
    clear_expired stateA 3 60 100 .ok 5 =
      clear_expired stateA stateA.admin 60 100 .ok 5 :=
  (clear_expired_ignores_caller stateA 3 60 100 .ok 5
    (by decide) (by decide)).1

/-! ## C2 -/

/-- C2 (counterexample): in `stateA` (fee 0, authorized caller 2, valid
period bounds [10, 100]), a `request` with `valid_period = 5` fails with
`ValueError` but does NOT leave the state unchanged: `request_idx` has
been incremented from 5 to 6. -/
theorem request_value_error_mutates_counter :
    (request stateA 2 0 100 0 5).2 = .error .ValueError ∧
    (request stateA 2 0 100 0 5).1 ≠ stateA ∧
    (request stateA 2 0 100 0 5).1.request_idx = 6 := by decide

/-- C2 (amended): `request`'s `Unauthorized` and `PaymentRequired`
failures leave the state unchanged, but its `ValueError` failure leaves
the state changed in exactly one place: `request_idx` has been
incremented (wrapping modulo 2^64), because the source increments the
counter before validating `valid_period`. -/
theorem request_validation_frame :
    ∀ (s : OracleState) (caller paid bn h vp : Nat),
    ((request s caller paid bn h vp).2 = .error .Unauthorized ∨
     (request s caller paid bn h vp).2 = .error .PaymentRequired →
      (request s caller paid bn h vp).1 = s) ∧
    ((request s caller paid bn h vp).2 = .error .ValueError →
      (request s caller paid bn h vp).1 =
        { s with request_idx := (s.request_idx + 1) % U64MOD }) := by
  intro s caller paid bn h vp
  by_cases h1 : caller ∉ s.authorized_users
  · simp [request, h1]
  · by_cases h2 : s.fee > 0 ∧ paid ≠ s.fee
    · simp [request, h1, h2]
    · by_cases h3 : vp < s.min_valid_period ∨ vp > s.max_valid_period
      · simp [request, h1, h2, h3]
      · simp [request, h1, h2, h3]

/-! ## C3 -/

/-- C3: a `callback` by the authorized oracle on a pending request whose
`valid_till` is before the current block refunds the full escrowed fee to
the original requester (one transfer, or none when the fee is 0), removes
the entry, and returns `RequestExpired`; if the refund errors, that error
is returned instead and the entry remains in the ledger. -/
theorem callback_expired_refunds_and_retires :
    ∀ (s : OracleState) (caller bn bal : Nat) (tr : TransferResult) (cb : Bool)
      (id user vt fee : Nat),
    caller = s.authorized_oracle →
    lookupReq s.requests id = some (user, vt, fee) →
    vt < bn →
    (∀ ts, refund_ bal tr user fee = .ok ts →
      callback s caller bn bal tr cb id =
        ({ s with requests := removeReq s.requests id },
          .error .RequestExpired, ts) ∧
      ts = if 0 < fee then [(user, fee)] else []) ∧
    (∀ e, refund_ bal tr user fee = .error e →
      callback s caller bn bal tr cb id = (s, .error e, []) ∧
      lookupReq (callback s caller bn bal tr cb id).1.requests id =
        some (user, vt, fee)) := by
  intro s caller bn bal tr cb id user vt fee hc hl hv
  constructor
  · intro ts hts
    refine ⟨?_, refund_ok_shape bal tr user fee ts hts⟩
    simp [callback, hc, hl, hv, hts]
  · intro e he
    have h1 : callback s caller bn bal tr cb id = (s, .error e, []) := by
      simp [callback, hc, hl, hv, he]
    exact ⟨h1, by rw [h1]; exact hl⟩

/-- C3 (witness): the oracle (account 1) fulfills request 5 of `stateA`
at block 60 (past its `valid_till` 50) with balance 100: requester 7 is
refunded the escrowed 100, the entry is removed, `RequestExpired` is
returned. -/
theorem callback_expired_refunds_witness :
    callback stateA 1 60 100 .ok true 5 =
      ({ stateA with requests := removeReq stateA.requests 5 },
        .error .RequestExpired, [(7, 100)]) :=
  ((callback_expired_refunds_and_retires stateA 1 60 100 .ok true 5 7 50 100
      rfl rfl (by decide)).1 [(7, 100)] (by decide)).1

/-! ## C4 -/

/-- C4: a `callback` by the authorized oracle on a pending, non-expired
request whose cross-contract delivery fails returns
`CallbackExecutionFailed` and leaves the entry in the ledger unchanged,
so a later `callback` for the same id with a successful delivery (before
expiry) still succeeds and retires the entry. -/
theorem callback_failure_leaves_entry :
    ∀ (s : OracleState) (caller bn bal : Nat) (tr : TransferResult)
      (id user vt fee : Nat),
    caller = s.authorized_oracle →
    lookupReq s.requests id = some (user, vt, fee) →
    ¬ vt < bn →
    callback s caller bn bal tr false id =
      (s, .error .CallbackExecutionFailed, []) ∧
    lookupReq (callback s caller bn bal tr false id).1.requests id =
      some (user, vt, fee) ∧
    (∀ bn2 bal2 tr2, ¬ vt < bn2 →
      callback s caller bn2 bal2 tr2 true id =
        ({ s with requests := removeReq s.requests id }, .ok (), [])) := by
  intro s caller bn bal tr id user vt fee hc hl hv
  have h1 : callback s caller bn bal tr false id =
      (s, .error .CallbackExecutionFailed, []) := by
    simp [callback, hc, hl, hv]
  refine ⟨h1, by rw [h1]; exact hl, ?_⟩
  intro bn2 bal2 tr2 hv2
  simp [callback, hc, hl, hv2]

/-- C4 (witness): the oracle's delivery for request 5 of `stateA` fails
at block 40 (before expiry at 50): the call reports
`CallbackExecutionFailed` and the state is unchanged. -/
theorem callback_failure_leaves_entry_witness :
    callback stateA 1 40 0 .ok false 5 =
      (stateA, .error .CallbackExecutionFailed, []) :=
  (callback_failure_leaves_entry stateA 1 40 0 .ok 5 7 50 100
    rfl rfl (by decide)).1

/-! ## C5 -/

/-- C5: `set_oracle` called by the admin first sweeps the whole positive
contract balance to the oracle identity current at call entry and only
then installs the new oracle; if the sweep's transfer fails, that error
is returned and `authorized_oracle` is unchanged. -/
theorem set_oracle_sweeps_then_swaps :
    ∀ (s : OracleState) (caller bal : Nat) (tr : TransferResult)
      (new_oracle : Nat),
    caller = s.admin →
    (∀ ts, claim_ s bal tr = .ok ts →
      set_oracle s caller bal tr new_oracle =
        ({ s with authorized_oracle := new_oracle }, .ok (), ts) ∧
      ts = if 0 < bal then [(s.authorized_oracle, bal)] else []) ∧
    (∀ e, claim_ s bal tr = .error e →
      set_oracle s caller bal tr new_oracle = (s, .error e, []) ∧
      (set_oracle s caller bal tr new_oracle).1.authorized_oracle =
        s.authorized_oracle) := by
  intro s caller bal tr no hc
  constructor
  · intro ts hts
    refine ⟨?_, claim_ok_shape s bal tr ts hts⟩
    simp [set_oracle, hc, hts]
  · intro e he
    have h1 : set_oracle s caller bal tr no = (s, .error e, []) := by
      simp [set_oracle, hc, he]
    exact ⟨h1, by rw [h1]⟩

/-- C5 (witness): the admin (account 0) of `stateA` rotates the oracle to
account 9 while the balance is 500: the 500 is swept to the old oracle
(account 1) and then the oracle becomes 9. -/
theorem set_oracle_sweeps_witness :
    set_oracle stateA 0 500 .ok 9 =
      ({ stateA with authorized_oracle := 9 }, .ok (), [(1, 500)]) :=
  ((set_oracle_sweeps_then_swaps stateA 0 500 .ok 9 rfl).1
    [(1, 500)] (by decide)).1

/-- A successful `request` stored the submitting caller, the expiry
`(bn + vp) % 2^64` computed by the wrapped u64 addition, and the fee in
effect at submission, under the allocated id. -/
theorem request_ok_lookup (s : OracleState) (caller paid bn h vp : Nat)
    (s2 : OracleState) (rid : Nat)
    (hreq : request s caller paid bn h vp = (s2, .ok rid)) :
    lookupReq s2.requests rid = some (caller, (bn + vp) % U64MOD, s.fee) := by
  by_cases h1 : caller ∉ s.authorized_users
  · simp [request, h1] at hreq
  · by_cases h2 : s.fee > 0 ∧ paid ≠ s.fee
    · simp [request, h1, h2] at hreq
    · by_cases h3 : vp < s.min_valid_period ∨ vp > s.max_valid_period
      · simp [request, h1, h2, h3] at hreq
      · simp only [request, h1, h2, h3, if_false, if_neg, not_false_iff] at hreq
        simp only [if_neg h1, if_neg h2, if_neg h3, Prod.mk.injEq] at hreq
        obtain ⟨hs2, hrid⟩ := hreq
        cases hs2
        cases hrid
        simp [lookup_insertReq_self]

/-! ## C6 -/

/-- C6 (counterexample): in `stateA` the fee is 0, yet a `request` by the
unauthorized account 3 (with in-bounds `valid_period` 50 and payment 0)
does not succeed — it fails with `Unauthorized`. -/
theorem request_zero_fee_unauthorized_fails :
    stateA.fee = 0 ∧
    (request stateA 3 0 100 0 50).2 = .error .Unauthorized := by decide

/-- C6 (amended): for a caller in `authorized_users`: when the fee is
positive, any payment different from the fee (overpayment included)
fails with `PaymentRequired`; when the fee is 0 and `valid_period` is
within `[min_valid_period, max_valid_period]`, the call succeeds with any
payment. -/
theorem request_payment_rule :
    ∀ (s : OracleState) (caller paid bn h vp : Nat),
    caller ∈ s.authorized_users →
    (0 < s.fee → paid ≠ s.fee →
      (request s caller paid bn h vp).2 = .error .PaymentRequired) ∧
    (s.fee = 0 → s.min_valid_period ≤ vp → vp ≤ s.max_valid_period →
      (request s caller paid bn h vp).2 =
        .ok ((s.request_idx + 1) % U64MOD)) := by
  intro s caller paid bn h vp hmem
  have hnot : ¬caller ∉ s.authorized_users := by simpa using hmem
  constructor
  · intro hf hp
    simp [request, hnot, hf, hp]
  · intro hf h1 h2
    have hcond : ¬(s.fee > 0 ∧ paid ≠ s.fee) := by simp [hf]
    have h3 : ¬(vp < s.min_valid_period ∨ vp > s.max_valid_period) := by omega
    simp [request, hnot, hcond, h3]

/-- C6 (witness): authorized account 2 submits to the zero-fee `stateA`
with an arbitrary payment of 777 and an in-bounds period of 50; the call
succeeds with the next (wrapped) id. -/
theorem request_payment_rule_witness :
    (request stateA 2 777 100 0 50).2 =
      .ok ((stateA.request_idx + 1) % U64MOD) :=
  (request_payment_rule stateA 2 777 100 0 50 (by decide)).2
    rfl (by decide) (by decide)

/-! ## C7 -/

/-- C7: a `callback` by the authorized oracle on an existing, non-expired
request with a successful delivery removes the entry and returns `Ok`,
and afterwards any second `callback` for the same id (any block, balance,
transfer outcome or delivery outcome) returns `RequestNotFound`. -/
theorem callback_success_at_most_once :
    ∀ (s : OracleState) (caller bn bal : Nat) (tr : TransferResult)
      (id user vt fee : Nat),
    caller = s.authorized_oracle →
    lookupReq s.requests id = some (user, vt, fee) →
    ¬ vt < bn →
    callback s caller bn bal tr true id =
      ({ s with requests := removeReq s.requests id }, .ok (), []) ∧
    (∀ bn2 bal2 tr2 cb2,
      callback { s with requests := removeReq s.requests id }
          caller bn2 bal2 tr2 cb2 id =
        ({ s with requests := removeReq s.requests id },
          .error .RequestNotFound, [])) := by
  intro s caller bn bal tr id user vt fee hc hl hv
  constructor
  · simp [callback, hc, hl, hv]
  · intro bn2 bal2 tr2 cb2
    simp [callback, hc, lookup_removeReq_self]

/-- C7 (witness): the oracle delivers request 5 of `stateA` successfully
at block 40 (before expiry at 50); the entry is retired. -/
theorem callback_success_at_most_once_witness :
    callback stateA 1 40 0 .ok true 5 =
      ({ stateA with requests := removeReq stateA.requests 5 },
        .ok (), []) :=
  (callback_success_at_most_once stateA 1 40 0 .ok 5 7 50 100
    rfl rfl (by decide)).1

/-! ## C8 -/

/-- C8: the `escrowed_fee` stored by a successful `request` equals the
fee in effect at submission time, and `set_fee` leaves every stored
request entry — requester, expiry and escrowed fee — untouched. -/
theorem request_escrow_and_set_fee_frame :
    ∀ (s : OracleState) (caller paid bn h vp : Nat) (s2 : OracleState)
      (rid : Nat),
    request s caller paid bn h vp = (s2, .ok rid) →
    lookupReq s2.requests rid = some (caller, (bn + vp) % U64MOD, s.fee) ∧
    (∀ c2 nf,
      lookupReq ((set_fee s2 c2 nf).1).requests rid =
        some (caller, (bn + vp) % U64MOD, s.fee)) := by
  intro s caller paid bn h vp s2 rid hreq
  have hmain := request_ok_lookup s caller paid bn h vp s2 rid hreq
  refine ⟨hmain, fun c2 nf => ?_⟩
  rw [set_fee_requests_frame]
  exact hmain

/-- C8 (witness): account 2 submits to `stateA` (fee 0) at block 100 with
period 50; the stored entry carries fee 0 and survives a later
`set_fee`. -/
theorem request_escrow_and_set_fee_frame_witness :
    lookupReq (request stateA 2 0 100 0 50).1.requests 6 =
      some (2, (100 + 50) % U64MOD, stateA.fee) :=
  (request_escrow_and_set_fee_frame stateA 2 0 100 0 50
    (request stateA 2 0 100 0 50).1 6 (by decide)).1

/-! ## C9 -/

/-- C9: at the boundary block — current block number exactly equal to a
pending request's `valid_till` — the request is not yet expired:
`callback` proceeds to attempt delivery (retiring the entry on success,
`CallbackExecutionFailed` on failure, never a refund), and
`clear_expired` fails with `RequestNotExpired`, for any caller. -/
theorem boundary_block_not_expired :
    ∀ (s : OracleState) (caller bn bal : Nat) (tr : TransferResult)
      (cb : Bool) (id user fee caller2 : Nat),
    caller = s.authorized_oracle →
    lookupReq s.requests id = some (user, bn, fee) →
    callback s caller bn bal tr cb id =
      (if cb then
        ({ s with requests := removeReq s.requests id }, .ok (), [])
       else (s, .error .CallbackExecutionFailed, [])) ∧
    clear_expired s caller2 bn bal tr id =
      (s, .error .RequestNotExpired, []) := by
  intro s caller bn bal tr cb id user fee caller2 hc hl
  have hnv : ¬bn < bn := lt_irrefl bn
  constructor
  · cases cb <;> simp [callback, hc, hl, hnv]
  · simp [clear_expired, hl, hnv]

/-- C9 (witness): at block 50, exactly the `valid_till` of request 5 of
`stateA`, `clear_expired` reports `RequestNotExpired` and changes
nothing. -/
theorem boundary_block_not_expired_witness :
    clear_expired stateA 3 50 0 .ok 5 =
      (stateA, .error .RequestNotExpired, []) :=
  (boundary_block_not_expired stateA 1 50 0 .ok true 5 7 100 3 rfl rfl).2

/-! ## C10 -/

/-- C10: the expiry computation `block_number + valid_period` in
`request` is unchecked u64 arithmetic: there is a concrete in-bounds
submission (block number `2^64 - 5`, period 10, within the [10, 100]
bounds of `stateA`) whose mathematical expiry `2^64 + 5` exceeds
`u64::MAX`, so the u64 addition overflows and the stored expiry (5)
differs from the true one; conversely, whenever
`block_number + valid_period < 2^64` the stored expiry is exact. -/
theorem valid_till_u64_overflow :
    ((2 : Nat) ∈ stateA.authorized_users ∧
     stateA.min_valid_period ≤ 10 ∧ (10 : Nat) ≤ stateA.max_valid_period ∧
     U64MOD - 5 < U64MOD ∧ U64MOD ≤ (U64MOD - 5) + 10 ∧
     (request stateA 2 0 (U64MOD - 5) 0 10).2 = .ok 6 ∧
     lookupReq (request stateA 2 0 (U64MOD - 5) 0 10).1.requests 6 =
       some (2, 5, 0) ∧
     (5 : Nat) ≠ (U64MOD - 5) + 10) ∧
    (∀ (s : OracleState) (caller paid bn h vp : Nat) (s2 : OracleState)
       (rid : Nat),
      bn + vp < U64MOD →
      request s caller paid bn h vp = (s2, .ok rid) →
      lookupReq s2.requests rid = some (caller, bn + vp, s.fee)) := by
  constructor
  · decide
  · intro s caller paid bn h vp s2 rid hlt hreq
    have := request_ok_lookup s caller paid bn h vp s2 rid hreq
    rwa [Nat.mod_eq_of_lt hlt] at this

end TOracle
